import Mathlib

/-!
Shallow embedding of `src/main.py` of the CurrencyExchangeBot repository.

The program is a Telegram bot in front of a currency-rate HTTP API.  Its
persistent state is an sqlite database with two tables:

* `ExchangeRates(currency TEXT UNIQUE, rate REAL)` — the cached snapshot;
* `LastSynced(timestamp)` — a single row holding the last refresh time.

We model the database as a `Store` record: the single `LastSynced` row as an
integer (epoch seconds; Telegram message dates are integers, and `init_db`
seeds the row with `0`) and the `ExchangeRates` table as an association list.
The `UNIQUE` constraint means at most one row per currency; the code paths we
embed either replace the table wholesale with the key-unique `rates`
dictionary of a parsed JSON response, or `SELECT` from it.

Rates and money amounts are Python floats in the source.  We model a float by
the exact fraction it denotes (`PyFloat` below): on the decimal literals and
the single multiply-then-round computation the program performs, this agrees
with Python on every value the claims mention.

HTTP is modelled by passing in the response the provider would give
(`HttpResponse`), together with a call counter in each function's result, so
that "the provider is not invoked" is the statement that the counter is 0.

All definitions are plain structural recursion so that every concrete run of
the embedded program can be checked by kernel evaluation (`decide`).
-/

namespace CurrencyBot

/-! ## Numbers: an exact-value model of Python floats -/

/-- Exact-fraction model of a Python float: the value `num / den`, with
`den > 0` on every value the program builds.  Arithmetic is exact fraction
arithmetic without normalization (so all operations are kernel-computable);
on the decimal literals and products appearing in the program and the claims,
the values agree with Python's binary floats. -/
structure PyFloat where
  num : Int
  den : Nat
  deriving DecidableEq, Repr

/-- Product of two values. -/
def PyFloat.mul (a b : PyFloat) : PyFloat := ⟨a.num * b.num, a.den * b.den⟩

/-- The value scaled by a natural number (used for `round(x, 2)` and decimal
digit extraction). -/
def PyFloat.scale (a : PyFloat) (k : Nat) : PyFloat := ⟨a.num * k, a.den⟩

/-- The value minus an integer. -/
def PyFloat.subInt (a : PyFloat) (n : Int) : PyFloat :=
  ⟨a.num - n * (a.den : Int), a.den⟩

/-- Floor of the value (`den` is positive on every value the program builds,
so integer floor division of `num` by `den` is the floor). -/
def PyFloat.floor (a : PyFloat) : Int := a.num.fdiv (a.den : Int)

/-- Is the value negative? -/
def PyFloat.isNeg (a : PyFloat) : Bool := a.num < 0

/-- Is the value zero? -/
def PyFloat.isZero (a : PyFloat) : Bool := a.num = 0

/-- Absolute value. -/
def PyFloat.abs (a : PyFloat) : PyFloat := ⟨(a.num.natAbs : Int), a.den⟩

/-- Is the value strictly below one half? -/
def PyFloat.ltHalf (a : PyFloat) : Bool := 2 * a.num < (a.den : Int)

/-- Is the value strictly above one half? -/
def PyFloat.gtHalf (a : PyFloat) : Bool := (a.den : Int) < 2 * a.num

/-- Rounding of a value to the nearest integer, ties to even — the rounding
mode of Python's builtin `round`. -/
def roundHalfEven (q : PyFloat) : Int :=
  let f := q.floor
  let r := q.subInt f
  if r.ltHalf then f
  else if r.gtHalf then f + 1
  else if f % 2 = 0 then f else f + 1

/-- Model of Python `round(x, 2)`: round half-to-even at two decimal
places. -/
def pyRound2 (q : PyFloat) : PyFloat := ⟨roundHalfEven (q.scale 100), 100⟩

/-- Fuel-bounded decimal digit expansion of a fractional value in `[0, 1)`. -/
def fracStr : PyFloat → Nat → String
  | _, 0 => ""
  | q, k + 1 =>
    let q10 := q.scale 10
    let d := q10.floor
    let rest := q10.subInt d
    toString d.toNat ++ (if rest.isZero then "" else fracStr rest k)

/-- Model of Python's rendering of a float in an f-string (`repr`), on values
that are exact decimal fractions: integral values render with a trailing
`.0` (e.g. `90.0`), other values with their decimal digits. -/
def fmtPy (q : PyFloat) : String :=
  let sign := if q.isNeg then "-" else ""
  let a := q.abs
  let ip := a.floor
  let fp := a.subInt ip
  sign ++ toString ip.toNat ++ "." ++ (if fp.isZero then "0" else fracStr fp 17)

/-! ## Strings: structural models of the Python string operations used -/

/-- Value of the digit characters of a string of decimal digits. -/
def digitsToNat (l : List Char) : Nat :=
  l.foldl (fun a c => 10 * a + (c.toNat - 48)) 0

/-- Model of Python `int(s)` on the token grammar the bot receives: an
optional sign followed by decimal digits.  Python raises `ValueError` on
anything else; we return `none`. -/
def parseInt (s : String) : Option Int :=
  match s.toList with
  | '-' :: ds =>
      if ds ≠ [] ∧ ds.all Char.isDigit then some (-(digitsToNat ds : Int)) else none
  | '+' :: ds =>
      if ds ≠ [] ∧ ds.all Char.isDigit then some (digitsToNat ds : Int) else none
  | ds =>
      if ds ≠ [] ∧ ds.all Char.isDigit then some (digitsToNat ds : Int) else none

/-- Core of `parseFloat`: digits, optionally followed by a point and more
digits. -/
def parseFloatCore (cs : List Char) : Option PyFloat :=
  let intPart := cs.takeWhile Char.isDigit
  match cs.dropWhile Char.isDigit with
  | [] =>
      if intPart ≠ [] then some ⟨(digitsToNat intPart : Int), 1⟩ else none
  | '.' :: fracCs =>
      if fracCs.all Char.isDigit ∧ (intPart ≠ [] ∨ fracCs ≠ []) then
        some ⟨(digitsToNat intPart * 10 ^ fracCs.length + digitsToNat fracCs : Int),
          10 ^ fracCs.length⟩
      else none
  | _ => none

/-- Model of Python `float(s)` restricted to plain decimal literals (optional
sign, digits, optional point and fraction digits) — the only float syntax the
bot's `/exchange` grammar is given in the claims; exponent and special forms
are not modelled.  Python raises `ValueError` on a non-numeric token; we
return `none`. -/
def parseFloat (s : String) : Option PyFloat :=
  match s.toList with
  | '-' :: rest => (parseFloatCore rest).map (fun q => ⟨-q.num, q.den⟩)
  | '+' :: rest => parseFloatCore rest
  | cs => parseFloatCore cs

/-- Helper of `pySplit`: accumulates the current word (reversed) while
scanning. -/
def wordsAux : List Char → List Char → List String
  | [], cur => if cur.isEmpty then [] else [String.mk cur.reverse]
  | c :: cs, cur =>
    if c.isWhitespace then
      if cur.isEmpty then wordsAux cs [] else String.mk cur.reverse :: wordsAux cs []
    else wordsAux cs (c :: cur)

/-- Model of Python `str.split()` with no argument: split on runs of
whitespace, discarding empty pieces. -/
def pySplit (s : String) : List String := wordsAux s.toList []

/-- Helper of `pySplitSlash`. -/
def splitSlashAux : List Char → List Char → List String
  | [], cur => [String.mk cur.reverse]
  | c :: cs, cur =>
    if c = '/' then String.mk cur.reverse :: splitSlashAux cs []
    else splitSlashAux cs (c :: cur)

/-- Model of Python `str.split('/')`: split at every slash, keeping empty
pieces; the result is always nonempty. -/
def pySplitSlash (s : String) : List String := splitSlashAux s.toList []

/-- Model of Python `str.upper()` (the bot only feeds it ASCII currency
codes). -/
def pyUpper (s : String) : String := String.mk (s.toList.map Char.toUpper)

/-- Model of line 96 of the source:
`float(usd_amount[1:]) if '$' in usd_amount else float(usd_amount)` strips the
FIRST character whenever a dollar sign occurs anywhere in the token. -/
def stripDollar (s : String) : String :=
  if s.toList.contains '$' then String.mk (s.toList.drop 1) else s

/-- Join a list of strings with a separator (Python `sep.join(rows)`). -/
def joinSep (sep : String) : List String → String
  | [] => ""
  | [a] => a
  | a :: rest => a ++ sep ++ joinSep sep rest

/-! ## State, provider responses, and the embedded program -/

/-- The persistent state: the single `LastSynced` row and the `ExchangeRates`
table. -/
structure Store where
  lastSync : Int
  rates : List (String × PyFloat)
  deriving DecidableEq, Repr

/-- A provider response to the `latest` query: the HTTP status code and, for
a 200 response, the `rates` dictionary of its JSON body (an association list
with unique keys, since it is a parsed JSON object). -/
structure HttpResponse where
  status : Nat
  rates : List (String × PyFloat)
  deriving DecidableEq, Repr

/-- The Python exception that escapes the functions we embed. -/
inductive PyError where
  /-- `UnboundLocalError`: a local variable referenced before assignment. -/
  | unboundLocal
  deriving DecidableEq, Repr

/-- Equality of `Except` values is decidable when it is on both sides; the
instance lets concrete runs of the embedded program be checked by `decide`. -/
def exceptDecEq {ε α : Type} [DecidableEq ε] [DecidableEq α] :
    (a b : Except ε α) → Decidable (a = b)
  | Except.error x, Except.error y =>
      if h : x = y then isTrue (by rw [h])
      else isFalse (fun hc => h (Except.error.inj hc))
  | Except.error _, Except.ok _ => isFalse (fun hc => Except.noConfusion hc)
  | Except.ok _, Except.error _ => isFalse (fun hc => Except.noConfusion hc)
  | Except.ok x, Except.ok y =>
      if h : x = y then isTrue (by rw [h])
      else isFalse (fun hc => h (Except.ok.inj hc))

instance {ε α : Type} [DecidableEq ε] [DecidableEq α] : DecidableEq (Except ε α) :=
  exceptDecEq

/-- Embedding of `get_exchange_rates(message_date)` (src/main.py lines 14-58).

Source control flow:
* the whole body runs inside `with sqlite3.connect(DB_NAME)`; this context
  manager commits the open transaction when the block exits normally and
  rolls it back when an exception exits the block (Python `sqlite3`
  documented behavior);
* lines 24-56 are a `try:` whose `except Exception as e: print(e)` swallows
  any exception raised in lines 25-54;
* line 30: if `message_date - last_saved_timestamp > 600`, the refresh
  branch runs: lines 32-33 delete-then-insert the new timestamp (a pending,
  uncommitted write), line 36 performs the provider GET;
* lines 38-45: on status 200, the local `exchange_rates` is bound to the
  response's `rates` dictionary, and the `ExchangeRates` table is truncated
  and refilled from it (pending writes); the normal return at line 58 then
  commits both pending writes;
* line 47: on any other status, `requests.ConnectionError` is raised; it is
  caught at line 55 and printed, so the local `exchange_rates` is never
  assigned, and `return exchange_rates` at line 58 raises
  `UnboundLocalError`.  That exception is outside the `try` (which ended at
  line 56), so it exits the `with` block, and the connection rolls the
  pending timestamp write back: the committed store is unchanged;
* lines 49-54 (fresh branch): the stored table is read into a dictionary and
  returned; no provider call is made.

The result triple is (outcome, committed store after the call, number of
provider calls). -/
def get_exchange_rates (store : Store) (message_date : Int) (resp : HttpResponse) :
    Except PyError (List (String × PyFloat)) × Store × Nat :=
  if message_date - store.lastSync > 600 then
    if resp.status = 200 then
      (Except.ok resp.rates, ⟨message_date, resp.rates⟩, 1)
    else
      (Except.error PyError.unboundLocal, store, 1)
  else
    (Except.ok store.rates, store, 0)

/-- Embedding of the response text built by `show_rate_list` (lines 71-74):
a header line joined with one `"<currency>: <round(rate, 2)>"` line per
stored entry. -/
def rate_list_string (exchange_rates : List (String × PyFloat)) : String :=
  joinSep "\n"
    ("Available rates for USD as base currency:" ::
      exchange_rates.map (fun cr => cr.1 ++ ": " ++ fmtPy (pyRound2 cr.2)))

/-- Embedding of the `/list` handler `show_rate_list` (lines 61-76).  The
handler has no `try`: if `get_exchange_rates` raises, the exception escapes
the handler and `bot.send_message` at line 76 is never reached — the user
gets no chat message.  The result is (chat messages sent, outcome, committed
store, provider calls). -/
def show_rate_list (store : Store) (message_date : Int) (resp : HttpResponse) :
    List String × Except PyError Unit × Store × Nat :=
  match get_exchange_rates store message_date resp with
  | (Except.ok exchange_rates, store2, calls) =>
      ([rate_list_string exchange_rates], Except.ok (), store2, calls)
  | (Except.error e, store2, calls) => ([], Except.error e, store2, calls)

/-- Embedding of the `/exchange` handler `exchange_currencies`
(lines 79-111).

Source control flow, in evaluation order inside the `try`:
* line 92: `split_msg = message.text.split()`;
* line 93: `split_msg[1]` — `IndexError` if fewer than two tokens, caught at
  line 104 → message `Incorrect input. Please, try again.`;
* line 94: `split_msg[-1].upper()` — the last token (present once line 93
  succeeded);
* line 96: dollar-sign stripping, then `float(...)` — `ValueError` caught at
  line 106 → message `Incorrect USD amount. Please, try again.`;
* lines 99-100: `SELECT rate FROM ExchangeRates WHERE currency = ?`, then
  `fetchone()[0]` — when no row matches, `fetchone()` returns `None` and the
  subscript raises `TypeError`, caught at line 108 → message
  `Second currency is not existing. Please, try again.`;
* line 103: the success message
  `f'{usd_amount} USD is {round(usd_amount*rate, 2)} {new_currency}'`.

The handler performs no HTTP request and never writes to the database (its
only query is the `SELECT` at line 99), so the result is (chat messages
sent, store unchanged, provider calls = 0). -/
def exchange_currencies (store : Store) (text : String) :
    List String × Store × Nat :=
  let split_msg := pySplit text
  match split_msg[1]? with
  | none => (["Incorrect input. Please, try again."], store, 0)
  | some usd_amount_tok =>
    let new_currency := pyUpper (split_msg.getLastD "")
    match parseFloat (stripDollar usd_amount_tok) with
    | none => (["Incorrect USD amount. Please, try again."], store, 0)
    | some usd_amount =>
      match store.rates.lookup new_currency with
      | none => (["Second currency is not existing. Please, try again."], store, 0)
      | some rate =>
        ([fmtPy usd_amount ++ " USD is " ++ fmtPy (pyRound2 (usd_amount.mul rate)) ++
            " " ++ new_currency], store, 0)

/-- Outcome of the parsing-and-date-range prefix of the `/history` handler:
either the provider GET is issued with the given query parameters, or an
error message is sent without any provider call. -/
inductive HistoryStep where
  /-- The GET at line 146 is issued with parameters
  `start_at`, `end_at` (dates, modelled as integer day numbers), `base` and
  `symbols`. -/
  | request (start_at end_at : Int) (base symbols : String)
  /-- A parse failure: the handler sends this chat message instead. -/
  | message (s : String)
  deriving DecidableEq, Repr

/-- Embedding of `show_history_graph` (lines 114-180) up to the provider GET
at line 146.  Dates are modelled as integer day numbers: `datetime.today()`
is the parameter `today`, and `timedelta(days=period)` subtraction is
integer subtraction (line 136).

Source control flow, in evaluation order inside the `try`:
* line 123: `split_msg = message.text.split()`;
* line 125: `split_msg[1].split('/')` — `IndexError` if fewer than two
  tokens, caught at line 173 → message
  `Incorrect base and second currencies. Please, try again.`;
* lines 127-129: `currencies[0]` (always present) and `currencies[1]` —
  `IndexError` if the token has no slash, caught at line 173 → same message;
* line 131: `period = int(split_msg[-2])` — `ValueError` on a non-integer
  token, caught at line 177 → message
  `Incorrect history period. Please, try again.`.  Note `int` accepts a
  leading minus sign: a negative period parses successfully;
* lines 134-146: `previous_date = today - timedelta(days=period)` and the
  GET with `start_at = previous_date`, `end_at = current_date`. -/
def show_history_graph_request (text : String) (today : Int) : HistoryStep :=
  let split_msg := pySplit text
  match split_msg[1]? with
  | none => HistoryStep.message "Incorrect base and second currencies. Please, try again."
  | some pair_tok =>
    let currencies := pySplitSlash pair_tok
    match currencies[1]? with
    | none => HistoryStep.message "Incorrect base and second currencies. Please, try again."
    | some second_currency =>
      let base_currency := currencies.getD 0 ""
      match parseInt (split_msg.getD (split_msg.length - 2) "") with
      | none => HistoryStep.message "Incorrect history period. Please, try again."
      | some period => HistoryStep.request (today - period) today base_currency second_currency

/-! ## Claims -/

/-- Claim C1: the claim says the failing refresh fails with a typed
ProviderUnavailable error.  The code instead catches the
`requests.ConnectionError` it raised and prints it, and then raises
`UnboundLocalError` at `return exchange_rates`; the stored state is
unchanged (the pending timestamp write is rolled back when the exception
exits the connection context manager).  This theorem evaluates the code at a
failing input: refresh branch taken (1700 - 1000 > 600), provider returns
503 — the outcome is the unbound-local error, not a provider error, the
store is unchanged, and the provider was called once. -/
theorem c1_provider_failure_unbound_local_state_unchanged :
    get_exchange_rates ⟨1000, [("EUR", ⟨9, 10⟩)]⟩ 1700 ⟨503, []⟩ =
      (Except.error PyError.unboundLocal, ⟨1000, [("EUR", ⟨9, 10⟩)]⟩, 1) := by
  decide

/-- Claim C2: whenever `requestTime - lastSync ≤ 600`, `get_exchange_rates`
returns exactly the stored snapshot, leaves the store unchanged, and makes
no provider call (call count 0), for every store and every would-be provider
response. -/
theorem c2_fresh_cache_serves_store (store : Store) (t : Int) (resp : HttpResponse)
    (h : t - store.lastSync ≤ 600) :
    get_exchange_rates store t resp = (Except.ok store.rates, store, 0) := by
  unfold get_exchange_rates
  rw [if_neg (by omega)]

/-- Witness for C2, the spec's scenario: `lastSync = 1000`,
`requestTime = 1500` (diff 500 ≤ 600) — the stored snapshot is returned and
the provider is not invoked. -/
theorem c2_fresh_cache_serves_store_witness :
    get_exchange_rates ⟨1000, [("JPY", ⟨150, 1⟩)]⟩ 1500 ⟨200, [("EUR", ⟨9, 10⟩)]⟩ =
      (Except.ok [("JPY", ⟨150, 1⟩)], ⟨1000, [("JPY", ⟨150, 1⟩)]⟩, 0) :=
  c2_fresh_cache_serves_store ⟨1000, [("JPY", ⟨150, 1⟩)]⟩ 1500 ⟨200, [("EUR", ⟨9, 10⟩)]⟩
    (by decide)

/-- Claim C3: when the refresh branch is taken (`t - lastSync > 600`) and
the provider returns 200 with a rates mapping (unique keys, as a parsed
JSON object), the committed store has `lastSync = t` and its rate table is
exactly the provider's mapping (full replacement, no merging), and that
same mapping is returned.  The provider is called once. -/
theorem c3_successful_refresh_replaces_store (store : Store) (t : Int)
    (resp : HttpResponse) (hstale : t - store.lastSync > 600)
    (hok : resp.status = 200) (_hkeys : (resp.rates.map Prod.fst).Nodup) :
    get_exchange_rates store t resp = (Except.ok resp.rates, ⟨t, resp.rates⟩, 1) := by
  unfold get_exchange_rates
  rw [if_pos hstale, if_pos hok]

/-- Witness for C3: a stale store holding an old entry is wholly replaced by
the provider's two-entry mapping, and the timestamp becomes the request
time. -/
theorem c3_successful_refresh_replaces_store_witness :
    get_exchange_rates ⟨1000, [("OLD", ⟨2, 1⟩)]⟩ 1700
        ⟨200, [("EUR", ⟨9, 10⟩), ("GBP", ⟨4, 5⟩)]⟩ =
      (Except.ok [("EUR", ⟨9, 10⟩), ("GBP", ⟨4, 5⟩)],
        ⟨1700, [("EUR", ⟨9, 10⟩), ("GBP", ⟨4, 5⟩)]⟩, 1) :=
  c3_successful_refresh_replaces_store ⟨1000, [("OLD", ⟨2, 1⟩)]⟩ 1700
    ⟨200, [("EUR", ⟨9, 10⟩), ("GBP", ⟨4, 5⟩)]⟩ (by decide) (by decide) (by decide)

/-- Counterexample to claim C4: the claim says that with `lastSync = 0` the
provider is invoked regardless of `requestTime`.  At `requestTime = 600`
the staleness test `600 - 0 > 600` is false, so the cached (empty) snapshot
is served and the provider call count is 0. -/
theorem c4_counterexample_small_request_time_no_fetch :
    (⟨0, []⟩ : Store).lastSync = 0 ∧
    get_exchange_rates ⟨0, []⟩ 600 ⟨200, [("EUR", ⟨9, 10⟩)]⟩ =
      (Except.ok [], ⟨0, []⟩, 0) := by
  decide

/-- Claim C4 as amended: with `lastSync = 0` the refresh branch is taken and
the provider is invoked for every `requestTime > 600` (in particular for
every realistic epoch-second timestamp); for `requestTime ≤ 600` the stored
snapshot is served without a provider call. -/
theorem c4_amended_never_synced_fetches (store : Store) (t : Int)
    (resp : HttpResponse) (h0 : store.lastSync = 0) (ht : t > 600) :
    (get_exchange_rates store t resp).2.2 = 1 := by
  unfold get_exchange_rates
  rw [if_pos (by omega)]
  split <;> rfl

/-- Witness for the amended C4: a never-synced store and a realistic message
date — the provider is invoked. -/
theorem c4_amended_never_synced_fetches_witness :
    (get_exchange_rates ⟨0, []⟩ 1700000000 ⟨200, []⟩).2.2 = 1 :=
  c4_amended_never_synced_fetches ⟨0, []⟩ 1700000000 ⟨200, []⟩ rfl (by decide)

/-- Claim C5: the claim says every failure path sends exactly one chat
message.  The code violates this: the `/list` handler has no exception
handling, so when `get_exchange_rates` takes the refresh branch and the
provider fails, the `UnboundLocalError` escapes the handler and no chat
message at all is sent.  This theorem evaluates that failing path: zero
messages, an escaped exception. -/
theorem c5_list_provider_failure_sends_no_message :
    show_rate_list ⟨1000, [("GBP", ⟨4, 5⟩)]⟩ 1701 ⟨502, []⟩ =
      ([], Except.error PyError.unboundLocal, ⟨1000, [("GBP", ⟨4, 5⟩)]⟩, 1) := by
  decide

/-- Claim C6: for every exchange message whose amount token parses to `a`
and whose (uppercased) target currency has stored rate `r`, the reply is
built from `round(a * r, 2)` — the unrounded stored rate is multiplied and
only the final product is rounded. -/
theorem c6_exchange_rounds_final_product (store : Store) (text amtTok : String)
    (a r : PyFloat)
    (h1 : (pySplit text)[1]? = some amtTok)
    (h2 : parseFloat (stripDollar amtTok) = some a)
    (h3 : store.rates.lookup (pyUpper ((pySplit text).getLastD "")) = some r) :
    exchange_currencies store text =
      ([fmtPy a ++ " USD is " ++ fmtPy (pyRound2 (a.mul r)) ++ " " ++
        pyUpper ((pySplit text).getLastD "")], store, 0) := by
  simp only [exchange_currencies, h1, h2, h3]

/-- Witness for C6, the spec's scenario: snapshot
`{"EUR": 0.9, "GBP": 0.8}`, message `/exchange $100 to EUR` — the reply is
`100.0 USD is 90.0 EUR`. -/
theorem c6_exchange_rounds_final_product_witness :
    exchange_currencies ⟨0, [("EUR", ⟨9, 10⟩), ("GBP", ⟨4, 5⟩)]⟩
        "/exchange $100 to EUR" =
      (["100.0 USD is 90.0 EUR"], ⟨0, [("EUR", ⟨9, 10⟩), ("GBP", ⟨4, 5⟩)]⟩, 0) := by
  have h := c6_exchange_rounds_final_product
    ⟨0, [("EUR", ⟨9, 10⟩), ("GBP", ⟨4, 5⟩)]⟩ "/exchange $100 to EUR" "$100"
    ⟨100, 1⟩ ⟨9, 10⟩ (by decide) (by decide) (by decide)
  rw [h]
  decide

/-- Claim C7: for every exchange message with at least two tokens and a
parsable amount whose uppercased target currency is absent from the stored
snapshot, the handler sends exactly the currency-not-existing message (the
`TypeError` from subscripting `fetchone()`'s `None` is caught), the store
is untouched and no provider call is made — including when the snapshot is
empty. -/
theorem c7_unknown_currency_not_found_message (store : Store) (text amtTok : String)
    (a : PyFloat)
    (h1 : (pySplit text)[1]? = some amtTok)
    (h2 : parseFloat (stripDollar amtTok) = some a)
    (h3 : store.rates.lookup (pyUpper ((pySplit text).getLastD "")) = none) :
    exchange_currencies store text =
      (["Second currency is not existing. Please, try again."], store, 0) := by
  simp only [exchange_currencies, h1, h2, h3]

/-- Witness for C7, the spec's scenario: empty snapshot,
`/exchange $50 to XYZ` — the currency-not-existing message. -/
theorem c7_unknown_currency_not_found_message_witness :
    exchange_currencies ⟨0, []⟩ "/exchange $50 to XYZ" =
      (["Second currency is not existing. Please, try again."], ⟨0, []⟩, 0) :=
  c7_unknown_currency_not_found_message ⟨0, []⟩ "/exchange $50 to XYZ" "$50" ⟨50, 1⟩
    (by decide) (by decide) (by decide)

/-- Claim C8: the claim says a negative history period must fail with
InputError or SyntaxError.  The code instead parses the negative integer
successfully (`int('-3')`), computes `previous_date = today - (-3) days`,
and issues the provider query with `start_at` three days AFTER `end_at` —
a reversed date range silently accepted, for every value of today. -/
theorem c8_negative_period_reversed_range_issued (today : Int) :
    show_history_graph_request "/history USD/EUR for -3 days" today =
      HistoryStep.request (today + 3) today "USD" "EUR" ∧
    today < today + 3 := by
  refine ⟨?_, by omega⟩
  have h2 : today - (-3) = today + 3 := by omega
  calc show_history_graph_request "/history USD/EUR for -3 days" today
      = HistoryStep.request (today - (-3)) today "USD" "EUR" := rfl
    _ = HistoryStep.request (today + 3) today "USD" "EUR" := by rw [h2]

/-- Counterexample to claim C9's final clause: the claim says the
delete-then-insert of the new timestamp is still committed when the refresh
fetch fails.  It is not: the `UnboundLocalError` raised at
`return exchange_rates` exits the `with sqlite3.connect(...)` block, whose
context manager rolls the open transaction back, so the committed timestamp
is the old one (2000), not the request time (3000). -/
theorem c9_counterexample_timestamp_rolled_back :
    (get_exchange_rates ⟨2000, [("JPY", ⟨150, 1⟩)]⟩ 3000 ⟨500, []⟩).2.1 =
      (⟨2000, [("JPY", ⟨150, 1⟩)]⟩ : Store) ∧ (2000 : Int) ≠ 3000 := by
  decide

/-- Claim C9 as amended: when the refresh branch is taken and the provider
response is non-200, `get_exchange_rates` neither returns a snapshot nor
raises a typed provider error — the `ConnectionError` is caught and printed
and the final `return` raises the unbound-local error — and the provider
was called once; but the pending delete-then-insert of the timestamp is
rolled back (not committed), so the committed store is unchanged. -/
theorem c9_amended_failure_unbound_local_rollback (store : Store) (t : Int)
    (resp : HttpResponse) (hstale : t - store.lastSync > 600)
    (hfail : resp.status ≠ 200) :
    get_exchange_rates store t resp = (Except.error PyError.unboundLocal, store, 1) := by
  unfold get_exchange_rates
  rw [if_pos hstale, if_neg hfail]

/-- Witness for the amended C9: a stale store and a 404 response — the
unbound-local error, an unchanged store, one provider call. -/
theorem c9_amended_failure_unbound_local_rollback_witness :
    get_exchange_rates ⟨100, []⟩ 10000 ⟨404, []⟩ =
      (Except.error PyError.unboundLocal, ⟨100, []⟩, 1) :=
  c9_amended_failure_unbound_local_rollback ⟨100, []⟩ 10000 ⟨404, []⟩
    (by decide) (by decide)

/-- Claim C10: the `/exchange` handler performs no HTTP call and no write to
storage (the store comes back unchanged and the provider call count is 0 on
every input); its reply depends only on the rate table, not on the last-sync
timestamp, so arbitrarily stale rates are served unchanged; and on an empty
(never-synced) store every well-formed message gets the currency-not-found
reply. -/
theorem c10_exchange_no_http_no_write_reads_rates_only (store : Store)
    (text : String) :
    (exchange_currencies store text).2 = (store, 0) ∧
    (∀ ls : Int, (exchange_currencies ⟨ls, store.rates⟩ text).1 =
      (exchange_currencies store text).1) ∧
    (store.rates = [] →
      ∀ amtTok : String, ∀ a : PyFloat, (pySplit text)[1]? = some amtTok →
        parseFloat (stripDollar amtTok) = some a →
        (exchange_currencies store text).1 =
          ["Second currency is not existing. Please, try again."]) := by
  refine ⟨?_, ?_, ?_⟩
  · simp only [exchange_currencies]
    repeat' split
    all_goals rfl
  · intro ls
    simp only [exchange_currencies]
    repeat' split
    all_goals rfl
  · intro hrates amtTok a h1 h2
    simp only [exchange_currencies, h1, h2, hrates, List.lookup]

/-- Witness for C10: on a never-synced empty store, a well-formed exchange
message gets the currency-not-found reply. -/
theorem c10_exchange_no_http_no_write_reads_rates_only_witness :
    (exchange_currencies ⟨999999, []⟩ "/exchange 7 to ABC").1 =
      ["Second currency is not existing. Please, try again."] :=
  (c10_exchange_no_http_no_write_reads_rates_only ⟨999999, []⟩
    "/exchange 7 to ABC").2.2 rfl "7" ⟨7, 1⟩ (by decide) (by decide)

end CurrencyBot
